import Mathlib

/-!
Verification of the speedrunner-tui notification viewer (Go) against its
natural-language specification, via a shallow embedding of the two program
variants (`src/main.go` and `src/unnamed/part_000`) in Lean 4.

Machine integers of the Go program (`int`, `int64`) are modelled as `Int`;
no arithmetic in the embedded code paths can overflow 64 bits on the inputs
considered, so no wrap-around is modelled.  Styling (lipgloss) is terminal
decoration only and is abstracted away; the embedded state and transitions
are the non-visual ones (notification list, selected index, unread count,
pagination, error, window and viewport dimensions).
-/

/-- Record `Notification`, from `src/main.go` lines 81-87 (identical in
`src/unnamed/part_000` lines 77-83): id, title, path, read flag, and
`date` as Unix epoch seconds (`int64`). -/
structure Notification where
  id : String
  title : String
  path : String
  read : Bool
  date : Int
deriving DecidableEq, Repr

/-- Record `Pagination`, from `src/main.go` lines 89-94. -/
structure Pagination where
  count : Int
  page : Int
  pages : Int
  per : Int
deriving DecidableEq, Repr

/-- Record `NotificationResponse`, from `src/main.go` lines 96-100. -/
structure NotificationResponse where
  unreadCount : Int
  notifications : List Notification
  pagination : Pagination
deriving DecidableEq, Repr

/-- Non-visual part of the bubbletea `model` struct, `src/main.go` lines
169-178.  The `viewport.Model` field is represented by the two dimensions
the program itself writes (`viewport.Width`, `viewport.Height`); its scroll
offset and style are toolkit internals the program never reads.  `err` is
the error message carried by the error state (`nil` = `none`). -/
structure Model where
  notifications : List Notification
  selected : Int
  unreadCount : Int
  pagination : Pagination
  err : Option String
  width : Int
  height : Int
  vpWidth : Int
  vpHeight : Int
deriving DecidableEq, Repr

/-- Input events of the `Update` step: a key press identified by the string
`msg.String()` returns, a terminal resize (`tea.WindowSizeMsg`), or any
other message kind. -/
inductive Msg where
  | key (s : String)
  | windowSize (w h : Int)
  | other
deriving DecidableEq, Repr

/-- Observable side effect of one `Update` step: nothing, the `tea.Quit`
command, or a fire-and-forget browser-open of a URL (`openBrowser` call).
The `Update` code discards `openBrowser`'s error, so the effect carries no
failure channel back into the model - faithful to `src/main.go` line 224. -/
inductive Effect where
  | none
  | quit
  | openURL (url : String)
deriving DecidableEq, Repr

/-- The non-visual state transition of `model.Update`, `src/main.go` lines
204-238.  Keys `q`/`ctrl+c` quit; `up`/`k` decrement `selected` when it is
positive; `down`/`j` increment it when below `len(notifications)-1`;
`enter` opens the selected notification's absolute URL when the index is in
bounds; a resize stores the new dimensions and sets the viewport to
`width-4` by `height-8`; everything else leaves the state unchanged (the
re-render and forwarding to the viewport primitive are visual only). -/
def Update (m : Model) (msg : Msg) : Model × Effect :=
  match msg with
  | Msg.key s =>
    if s = "q" ∨ s = "ctrl+c" then
      (m, Effect.quit)
    else if s = "up" ∨ s = "k" then
      (if m.selected > 0 then { m with selected := m.selected - 1 } else m, Effect.none)
    else if s = "down" ∨ s = "j" then
      (if m.selected < (m.notifications.length : Int) - 1 then
        { m with selected := m.selected + 1 } else m, Effect.none)
    else if s = "enter" then
      if h : 0 ≤ m.selected ∧ m.selected < (m.notifications.length : Int) then
        (m, Effect.openURL ("https://www.speedrun.com" ++
          (m.notifications.get ⟨m.selected.toNat, by omega⟩).path))
      else
        (m, Effect.none)
    else
      (m, Effect.none)
  | Msg.windowSize w h =>
    ({ m with width := w, height := h, vpWidth := w - 4, vpHeight := h - 8 }, Effect.none)
  | Msg.other => (m, Effect.none)

/-- The same non-visual state transition transcribed from the second
variant, `src/unnamed/part_000` lines 200-234.  Kept as a separate
definition so the two variants can be compared extensionally. -/
def UpdatePart (m : Model) (msg : Msg) : Model × Effect :=
  match msg with
  | Msg.key s =>
    if s = "q" ∨ s = "ctrl+c" then
      (m, Effect.quit)
    else if s = "up" ∨ s = "k" then
      (if m.selected > 0 then { m with selected := m.selected - 1 } else m, Effect.none)
    else if s = "down" ∨ s = "j" then
      (if m.selected < (m.notifications.length : Int) - 1 then
        { m with selected := m.selected + 1 } else m, Effect.none)
    else if s = "enter" then
      if h : 0 ≤ m.selected ∧ m.selected < (m.notifications.length : Int) then
        (m, Effect.openURL ("https://www.speedrun.com" ++
          (m.notifications.get ⟨m.selected.toNat, by omega⟩).path))
      else
        (m, Effect.none)
    else
      (m, Effect.none)
  | Msg.windowSize w h =>
    ({ m with width := w, height := h, vpWidth := w - 4, vpHeight := h - 8 }, Effect.none)
  | Msg.other => (m, Effect.none)

/-- Constant `baseURL`, `src/main.go` line 21 (identical in the variant). -/
def baseURL : String := "https://www.speedrun.com/api/v2"

/-- Shape of the outbound HTTP request `Client.GetNotifications` builds:
method, URL, JSON body, header assignments in program order, cookies. -/
structure HttpRequest where
  method : String
  url : String
  body : String
  headers : List (String × String)
  cookies : List (String × String)
deriving DecidableEq, Repr

/-- Request construction of `Client.GetNotifications`, `src/main.go` lines
122-147: POST to `baseURL ++ "/GetNotifications"`, body the JSON encoding
of `RequestBody{U:1, I:1}`, the six fixed browser-mimicking headers, and
the `PHPSESSID` cookie carrying the caller's session id. -/
def GetNotificationsRequest (sessionID : String) : HttpRequest :=
  { method := "POST"
    url := baseURL ++ "/GetNotifications"
    body := "\x7b\"u\":1,\"i\":1\x7d"
    headers :=
      [ ("Accept", "application/json"),
        ("Content-Type", "application/json"),
        ("Origin", "https://www.speedrun.com"),
        ("Referer", "https://www.speedrun.com/notifications"),
        ("Accept-Language", "en-US,en;q=0.9"),
        ("User-Agent",
          "Mozilla/5.0 (X11; Linux x86_64) AppleWebKit/537.36 (KHTML, like Gecko) Chrome/120.0.0.0 Safari/537.36") ]
    cookies := [("PHPSESSID", sessionID)] }

/-- Request construction of the second variant's `Client.GetNotifications`,
`src/unnamed/part_000` lines 118-143, transcribed separately. -/
def GetNotificationsRequestPart (sessionID : String) : HttpRequest :=
  { method := "POST"
    url := baseURL ++ "/GetNotifications"
    body := "\x7b\"u\":1,\"i\":1\x7d"
    headers :=
      [ ("Accept", "application/json"),
        ("Content-Type", "application/json"),
        ("Origin", "https://www.speedrun.com"),
        ("Referer", "https://www.speedrun.com/notifications"),
        ("Accept-Language", "en-US,en;q=0.9"),
        ("User-Agent",
          "Mozilla/5.0 (X11; Linux x86_64) AppleWebKit/537.36 (KHTML, like Gecko) Chrome/120.0.0.0 Safari/537.36") ]
    cookies := [("PHPSESSID", sessionID)] }

/-- Error message built at `src/main.go` line 157 for a non-200 status:
`fmt.Errorf("unexpected status code %d: %s", resp.StatusCode, string(body))`. -/
def statusErrMsg (status : Int) (body : String) : String :=
  "unexpected status code " ++ toString status ++ ": " ++ body

/-- Response handling of `Client.GetNotifications`, `src/main.go` lines
155-165: a non-200 status yields the status-code error without touching
the JSON decoder; a 200 status decodes the body, a decode failure yielding
the wrapped `decoding response` error.  The JSON decoder itself (Go
standard library) is a parameter `decode`. -/
def handleResponse (decode : String → Except String NotificationResponse)
    (status : Int) (body : String) : Except String NotificationResponse :=
  if status ≠ 200 then
    Except.error (statusErrMsg status body)
  else
    match decode body with
    | Except.ok r => Except.ok r
    | Except.error e => Except.error ("decoding response: " ++ e)

/-- Response handling of the second variant's `Client.GetNotifications`,
`src/unnamed/part_000` lines 151-161, transcribed separately. -/
def handleResponsePart (decode : String → Except String NotificationResponse)
    (status : Int) (body : String) : Except String NotificationResponse :=
  if status ≠ 200 then
    Except.error (statusErrMsg status body)
  else
    match decode body with
    | Except.ok r => Except.ok r
    | Except.error e => Except.error ("decoding response: " ++ e)

/-- An OS process spawn: executable name and argument list. -/
structure SpawnCmd where
  name : String
  args : List String
deriving DecidableEq, Repr

/-- Function `openBrowser`, `src/main.go` lines 301-314 (identical in the
variant, lines 298-311): dispatch on `runtime.GOOS` to one of three fixed
open-default-browser commands, any other platform yielding the
`unsupported platform` error with no spawn. -/
def openBrowser (goos url : String) : Except String SpawnCmd :=
  if goos = "linux" then
    Except.ok { name := "xdg-open", args := [url] }
  else if goos = "windows" then
    Except.ok { name := "cmd", args := ["/c", "start", url] }
  else if goos = "darwin" then
    Except.ok { name := "open", args := [url] }
  else
    Except.error "unsupported platform"

/-- Construction of `initialModel`, `src/main.go` lines 180-198, over the
outcome of the blocking fetch.  A fetch error yields `model{err: err}`,
whose remaining fields are Go zero values (empty list, index 0, zero
dimensions); success yields the decoded response's fields with `selected`
0 and a `viewport.New(78, 20)`. -/
def initialModel (fetch : Except String NotificationResponse) : Model :=
  match fetch with
  | Except.error e =>
    { notifications := [], selected := 0, unreadCount := 0,
      pagination := ⟨0, 0, 0, 0⟩, err := Option.some e,
      width := 0, height := 0, vpWidth := 0, vpHeight := 0 }
  | Except.ok r =>
    { notifications := r.notifications, selected := 0,
      unreadCount := r.unreadCount, pagination := r.pagination,
      err := Option.none, width := 0, height := 0, vpWidth := 78, vpHeight := 20 }

/-- States of the interactive session: an initial model from some fetch
outcome, closed under the `Update` step on arbitrary events. -/
inductive Reachable : Model → Prop where
  | init (fetch : Except String NotificationResponse) : Reachable (initialModel fetch)
  | step (m : Model) (msg : Msg) : Reachable m → Reachable ((Update m msg).1)

/-- Outcome of `main`, `src/main.go` lines 316-336: process exit code,
whether the usage-style message was printed, and whether any network
activity (the client fetch inside `tea.NewProgram(initialModel(client))`)
was reached. -/
structure MainOutcome where
  exitCode : Nat
  printedUsage : Bool
  networkAttempted : Bool
deriving DecidableEq, Repr

/-- Control flow of `main`, `src/main.go` lines 316-336: an empty
`-session` flag prints the usage-style message and exits 1 before the
client is created; otherwise the program runs, exiting 1 when `p.Run`
fails and falling off `main` (exit 0) when it succeeds. -/
def mainRun (session : String) (runFails : Bool) : MainOutcome :=
  if session = "" then
    { exitCode := 1, printedUsage := true, networkAttempted := false }
  else if runFails then
    { exitCode := 1, printedUsage := false, networkAttempted := true }
  else
    { exitCode := 0, printedUsage := false, networkAttempted := true }

/-- Conversion from a day count relative to 1970-01-01 to a proleptic
Gregorian calendar date (year, month, day), the arithmetic the Go `time`
package performs inside `time.Unix(...).Format`.  Standard civil-from-days
computation over floor division. -/
def civilFromDays (z0 : Int) : Int × Int × Int :=
  let z := z0 + 719468
  let era := Int.ediv z 146097
  let doe := z - era * 146097
  let yoe := Int.ediv (doe - Int.ediv doe 1460 + Int.ediv doe 36524 - Int.ediv doe 146096) 365
  let y := yoe + era * 400
  let doy := doe - (365 * yoe + Int.ediv yoe 4 - Int.ediv yoe 100)
  let mp := Int.ediv (5 * doy + 2) 153
  let d := doy - Int.ediv (153 * mp + 2) 5 + 1
  let m := mp + (if mp < 10 then 3 else -9)
  (y + (if m ≤ 2 then 1 else 0), m, d)

/-- Zero-padding to two digits, as layout `01`/`02`/`15`/`04`/`05` of the
Go reference format does. -/
def pad2 (n : Int) : String :=
  if n < 10 then "0" ++ toString n else toString n

/-- Zero-padding of the year to four digits, as layout `2006` does. -/
def pad4 (n : Int) : String :=
  if n < 10 then "000" ++ toString n
  else if n < 100 then "00" ++ toString n
  else if n < 1000 then "0" ++ toString n
  else toString n

/-- Semantics of `time.Unix(t, 0).Format("2006-01-02 15:04:05")` at
`src/main.go` line 264 (variant line 260): the epoch seconds shifted by
the timezone offset (Go uses the local system timezone; offset 0 is UTC),
split into a day count and second-of-day by floor division, the day count
converted to a calendar date, all rendered zero-padded. -/
def formatEpoch (tzOffset t : Int) : String :=
  let tl := t + tzOffset
  let days := Int.ediv tl 86400
  let secs := Int.emod tl 86400
  let ymd := civilFromDays days
  let hh := Int.ediv secs 3600
  let mm := Int.ediv (Int.emod secs 3600) 60
  let ss := Int.emod secs 60
  pad4 ymd.1 ++ "-" ++ pad2 ymd.2.1 ++ "-" ++ pad2 ymd.2.2 ++ " " ++
    pad2 hh ++ ":" ++ pad2 mm ++ ":" ++ pad2 ss

/-- Text content of `model.renderNotification`, `src/main.go` lines
256-275, with lipgloss styling stripped to the strings it decorates: a
`[✓]` or `[!]` marker with the formatted date, the title line, and the
`speedrun.com` relative URL line. -/
def renderNotification (tzOffset : Int) (n : Notification) : String :=
  let readStatus := if n.read then "✓" else "!"
  let date := formatEpoch tzOffset n.date
  "[" ++ readStatus ++ "] " ++ date ++ "\n" ++ n.title ++ "\n" ++
    "speedrun.com" ++ n.path

/-- Modelled from the spec: the plain-text batch variant of the program
(the third near-duplicate the spec describes, carrying the `-json` and
`-all` CLI flags) is not under `src/`.  Per the spec's renderer section,
plain-text mode iterates the notifications in response order and skips
already-read notifications unless the show-all option is set.  This
definition is that selection loop: it returns the notifications the mode
renders, in order. -/
def plainTextSelect (showAll : Bool) : List Notification → List Notification
  | [] => []
  | n :: rest =>
    if n.read ∧ showAll = false then
      plainTextSelect showAll rest
    else
      n :: plainTextSelect showAll rest

/-! ## Helper lemmas about the `Update` step -/

/-- The `Update` step never modifies the notification list, the unread
count, the pagination record, or the error field. -/
theorem update_preserves_fields (m : Model) (msg : Msg) :
    (Update m msg).1.notifications = m.notifications ∧
    (Update m msg).1.unreadCount = m.unreadCount ∧
    (Update m msg).1.pagination = m.pagination ∧
    (Update m msg).1.err = m.err := by
  cases msg with
  | key s =>
    simp only [Update]
    repeat' split
    all_goals exact ⟨rfl, rfl, rfl, rfl⟩
  | windowSize w h => exact ⟨rfl, rfl, rfl, rfl⟩
  | other => exact ⟨rfl, rfl, rfl, rfl⟩

/-- Every `Update` step either keeps the selected index, decrements a
positive one, or increments one strictly below `length - 1`. -/
theorem update_selected_cases (m : Model) (msg : Msg) :
    (Update m msg).1.selected = m.selected ∨
    ((Update m msg).1.selected = m.selected - 1 ∧ 0 < m.selected) ∨
    ((Update m msg).1.selected = m.selected + 1 ∧
      m.selected < (m.notifications.length : Int) - 1) := by
  cases msg with
  | key s =>
    simp only [Update]
    repeat' split
    all_goals simp_all
  | windowSize w h => exact Or.inl rfl
  | other => exact Or.inl rfl

/-- Behaviour of the up/k branch of `Update`. -/
theorem update_up_key (m : Model) (s : String) (hs : s = "up" ∨ s = "k") :
    Update m (Msg.key s) =
      (if 0 < m.selected then { m with selected := m.selected - 1 } else m,
        Effect.none) := by
  rcases hs with hs | hs <;> subst hs <;> simp [Update]

/-- Behaviour of the down/j branch of `Update`. -/
theorem update_down_key (m : Model) (s : String) (hs : s = "down" ∨ s = "j") :
    Update m (Msg.key s) =
      (if m.selected < (m.notifications.length : Int) - 1 then
        { m with selected := m.selected + 1 } else m,
        Effect.none) := by
  rcases hs with hs | hs <;> subst hs <;> simp [Update]

/-! ## Claims -/

/-- C1: for every model whose notification list is non-empty and whose
selected index is a valid index, the `Update` step on any event yields a
selected index that is still valid; an up/k key sets it to
`max 0 (selected - 1)` (decrement floored at 0, so up at index 0 is a
no-op) and a down/j key sets it to `min (selected + 1) (length - 1)`
(increment capped at `length - 1`, so down at the last index is a
no-op). -/
theorem update_keeps_selected_valid (m : Model) (msg : Msg)
    (hlo : 0 ≤ m.selected) (hhi : m.selected < (m.notifications.length : Int)) :
    (0 ≤ (Update m msg).1.selected ∧
      (Update m msg).1.selected < ((Update m msg).1.notifications.length : Int)) ∧
    (∀ s, s = "up" ∨ s = "k" →
      (Update m (Msg.key s)).1.selected = max 0 (m.selected - 1)) ∧
    (∀ s, s = "down" ∨ s = "j" →
      (Update m (Msg.key s)).1.selected =
        min (m.selected + 1) ((m.notifications.length : Int) - 1)) := by
  refine ⟨?_, ?_, ?_⟩
  · have hn := (update_preserves_fields m msg).1
    rcases update_selected_cases m msg with hc | ⟨hc, hpos⟩ | ⟨hc, hlt⟩ <;>
      rw [hn, hc] <;> omega
  · intro s hs
    rw [update_up_key m s hs]
    split <;> simp <;> omega
  · intro s hs
    rw [update_down_key m s hs]
    split <;> simp <;> omega

/-- Concrete two-notification model used by the witnesses. -/
def twoItemModel : Model :=
  { notifications :=
      [ { id := "a", title := "t1", path := "/p1", read := false, date := 0 },
        { id := "b", title := "t2", path := "/p2", read := true, date := 0 } ],
    selected := 1, unreadCount := 1, pagination := ⟨2, 1, 1, 20⟩,
    err := Option.none, width := 0, height := 0, vpWidth := 78, vpHeight := 20 }

/-- Witness for `update_keeps_selected_valid` at a concrete two-element
model with selected index 1 and a down-key event. -/
theorem update_keeps_selected_valid_witness :
    (0 ≤ twoItemModel.selected ∧
      twoItemModel.selected < (twoItemModel.notifications.length : Int)) ∧
    ((0 ≤ (Update twoItemModel (Msg.key "j")).1.selected ∧
      (Update twoItemModel (Msg.key "j")).1.selected <
        ((Update twoItemModel (Msg.key "j")).1.notifications.length : Int)) ∧
    (∀ s, s = "up" ∨ s = "k" →
      (Update twoItemModel (Msg.key s)).1.selected =
        max 0 (twoItemModel.selected - 1)) ∧
    (∀ s, s = "down" ∨ s = "j" →
      (Update twoItemModel (Msg.key s)).1.selected =
        min (twoItemModel.selected + 1)
          ((twoItemModel.notifications.length : Int) - 1))) :=
  ⟨⟨by decide, by decide⟩,
    update_keeps_selected_valid twoItemModel (Msg.key "j") (by decide) (by decide)⟩

/-- Concrete model with an empty notification list and selected index 1
(a state outside the reachable ones, where the spec leaves the index
undefined for an empty list). -/
def emptySelOne : Model :=
  { notifications := [], selected := 1, unreadCount := 0,
    pagination := ⟨0, 0, 0, 0⟩, err := Option.none,
    width := 0, height := 0, vpWidth := 0, vpHeight := 0 }

/-- C4 counterexample: the claim quantifies over every model with an empty
notification list, but at the model with empty list and selected index 1
the up key does not leave the selected index unchanged - the `Update` code
guards only on `selected > 0`, so it decrements 1 to 0. -/
theorem empty_list_up_moves_selected :
    (Update emptySelOne (Msg.key "up")).1.selected ≠ emptySelOne.selected := by
  decide

/-- C4 amended: for every model whose notification list is empty and whose
selected index is 0 - which holds in every reachable state with an empty
list - an up/k or down/j key returns the model unchanged with no effect,
and the enter key returns the model unchanged with no effect: no
browser-open is issued and no list element is accessed (the in-bounds
guard `0 ≤ selected < length` is false). -/
theorem empty_list_keys_noop (m : Model) (he : m.notifications = [])
    (hs : m.selected = 0) :
    (∀ s, s = "up" ∨ s = "k" ∨ s = "down" ∨ s = "j" →
      Update m (Msg.key s) = (m, Effect.none)) ∧
    Update m (Msg.key "enter") = (m, Effect.none) := by
  constructor
  · intro s hs'
    rcases hs' with h | h | h | h <;> subst h <;> simp [Update, he, hs]
  · simp [Update, he, hs]

/-- Concrete model with an empty list and selected index 0, as produced by
`initialModel` on an empty response. -/
def emptySelZero : Model :=
  { notifications := [], selected := 0, unreadCount := 0,
    pagination := ⟨0, 0, 0, 0⟩, err := Option.none,
    width := 0, height := 0, vpWidth := 0, vpHeight := 0 }

/-- Witness for `empty_list_keys_noop` at the concrete empty model. -/
theorem empty_list_keys_noop_witness :
    (emptySelZero.notifications = [] ∧ emptySelZero.selected = 0) ∧
    ((∀ s, s = "up" ∨ s = "k" ∨ s = "down" ∨ s = "j" →
      Update emptySelZero (Msg.key s) = (emptySelZero, Effect.none)) ∧
    Update emptySelZero (Msg.key "enter") = (emptySelZero, Effect.none)) :=
  ⟨⟨rfl, rfl⟩, empty_list_keys_noop emptySelZero rfl rfl⟩

/-- C5: for every model with a selected notification (the list is
non-empty and the selected index in bounds, as the spec's data-model
invariant guarantees), the `Update` step on the enter key opens exactly
the URL `"https://www.speedrun.com" ++ path` of the selected notification
and returns the model completely unchanged: a failure of the spawned
browser command has no channel back into the state (the `Effect` type
carries none) and the error field stays as it was, so no user-visible
error can arise from this action. -/
theorem enter_opens_selected_url (m : Model) (n : Notification)
    (hlo : 0 ≤ m.selected) (hhi : m.selected < (m.notifications.length : Int))
    (hn : m.notifications[m.selected.toNat]? = some n) :
    Update m (Msg.key "enter") =
      (m, Effect.openURL ("https://www.speedrun.com" ++ n.path)) := by
  have hlt : m.selected.toNat < m.notifications.length := by omega
  simp only [Update]
  rw [if_neg (by decide), if_neg (by decide), if_neg (by decide),
    if_pos (by decide), dif_pos ⟨hlo, hhi⟩]
  rw [List.getElem?_eq_getElem hlt] at hn
  simp_all

/-- Witness for `enter_opens_selected_url` at the concrete two-element
model with selected index 1. -/
theorem enter_opens_selected_url_witness :
    (0 ≤ twoItemModel.selected ∧
      twoItemModel.selected < (twoItemModel.notifications.length : Int) ∧
      twoItemModel.notifications[twoItemModel.selected.toNat]? =
        some { id := "b", title := "t2", path := "/p2", read := true, date := 0 }) ∧
    Update twoItemModel (Msg.key "enter") =
      (twoItemModel, Effect.openURL ("https://www.speedrun.com" ++ "/p2")) :=
  ⟨⟨by decide, by decide, by decide⟩,
    enter_opens_selected_url twoItemModel
      { id := "b", title := "t2", path := "/p2", read := true, date := 0 }
      (by decide) (by decide) (by decide)⟩

/-- C2: with the show-all flag unset, the plain-text selection keeps
exactly the notifications whose read flag is false - it equals the filter
of the response list by unread - a notification is in the output exactly
when it is an unread notification of the input, and the output is a
sublist of the input, so the original relative order is preserved. -/
theorem plaintext_unread_filter (resp : NotificationResponse) :
    plainTextSelect false resp.notifications =
      List.filter (fun n => !n.read) resp.notifications ∧
    (∀ n, n ∈ plainTextSelect false resp.notifications ↔
      n ∈ resp.notifications ∧ n.read = false) ∧
    List.Sublist (plainTextSelect false resp.notifications)
      resp.notifications := by
  have hfilter : ∀ l : List Notification,
      plainTextSelect false l = List.filter (fun n => !n.read) l := by
    intro l
    induction l with
    | nil => rfl
    | cons n rest ih =>
      by_cases hr : n.read <;>
        simp [plainTextSelect, List.filter, hr, ih]
  refine ⟨hfilter _, ?_, ?_⟩
  · intro n
    rw [hfilter]
    simp [List.mem_filter]
  · rw [hfilter]
    exact List.filter_sublist _

/-- C3: for every response with a status code other than 200, the
response handling of `GetNotifications` is independent of the JSON
decoder (it is never consulted), and yields the error message that
carries the numeric status code and the raw body text as substrings. -/
theorem non_200_skips_decode (status : Int) (body : String)
    (d1 d2 : String → Except String NotificationResponse)
    (h : status ≠ 200) :
    handleResponse d1 status body = handleResponse d2 status body ∧
    handleResponse d1 status body = Except.error (statusErrMsg status body) ∧
    (∃ l r, statusErrMsg status body = l ++ toString status ++ r) ∧
    (∃ l, statusErrMsg status body = l ++ body) := by
  refine ⟨?_, ?_, ?_, ?_⟩
  · simp [handleResponse, h]
  · simp [handleResponse, h]
  · exact ⟨"unexpected status code ", ": " ++ body,
      by simp [statusErrMsg, String.append_assoc]⟩
  · exact ⟨"unexpected status code " ++ toString status ++ ": ", rfl⟩

/-- Witness for `non_200_skips_decode` at status 401 with body
`Unauthorized` and two distinct decoders. -/
theorem non_200_skips_decode_witness :
    ((401 : Int) ≠ 200) ∧
    (handleResponse (fun _ => Except.error "x") 401 "Unauthorized" =
      handleResponse (fun s => Except.error s) 401 "Unauthorized" ∧
    handleResponse (fun _ => Except.error "x") 401 "Unauthorized" =
      Except.error (statusErrMsg 401 "Unauthorized") ∧
    (∃ l r, statusErrMsg 401 "Unauthorized" = l ++ toString (401 : Int) ++ r) ∧
    (∃ l, statusErrMsg 401 "Unauthorized" = l ++ "Unauthorized")) :=
  ⟨by decide,
    non_200_skips_decode 401 "Unauthorized"
      (fun _ => Except.error "x") (fun s => Except.error s) (by decide)⟩

/-- C6: the rendered notification text contains, as its timestamp, the
notification's epoch-seconds value converted to a calendar date and
formatted `YYYY-MM-DD HH:MM:SS` (for any timezone offset), and at the
fixed epoch 1700000000 with the UTC offset 0 that formatted value is
exactly `2023-11-14 22:13:20`. -/
theorem timestamp_rendering :
    (∀ tzOffset n, ∃ l r,
      renderNotification tzOffset n = l ++ formatEpoch tzOffset n.date ++ r) ∧
    formatEpoch 0 1700000000 = "2023-11-14 22:13:20" := by
  constructor
  · intro tzOffset n
    refine ⟨"[" ++ (if n.read then "✓" else "!") ++ "] ",
      "\n" ++ n.title ++ "\n" ++ "speedrun.com" ++ n.path, ?_⟩
    simp [renderNotification, String.append_assoc]
  · rfl

/-- C7: with the `-session` flag empty, `main` prints the usage-style
message and exits with code 1 without reaching any network activity; with
the flag present and the program run (fetch and render) succeeding, the
exit code is 0. -/
theorem main_exit_codes (session : String) (runFails : Bool) :
    (session = "" →
      mainRun session runFails =
        { exitCode := 1, printedUsage := true, networkAttempted := false }) ∧
    (session ≠ "" → runFails = false →
      (mainRun session runFails).exitCode = 0) := by
  constructor
  · intro h
    simp [mainRun, h]
  · intro h hr
    simp [mainRun, h, hr]

/-- Witness for `main_exit_codes`: the empty flag at a failing run, and a
present flag at a succeeding run. -/
theorem main_exit_codes_witness :
    mainRun "" true =
      { exitCode := 1, printedUsage := true, networkAttempted := false } ∧
    (mainRun "abc123" false).exitCode = 0 :=
  ⟨(main_exit_codes "" true).1 rfl,
    (main_exit_codes "abc123" false).2 (by decide) rfl⟩

/-- C8: `openBrowser` dispatches on the platform string to exactly one of
the three fixed open-default-browser commands for linux, windows and
darwin, and for every other platform value it spawns nothing and returns
the `unsupported platform` error. -/
theorem open_browser_dispatch (goos url : String) :
    (goos = "linux" →
      openBrowser goos url = Except.ok { name := "xdg-open", args := [url] }) ∧
    (goos = "windows" →
      openBrowser goos url =
        Except.ok { name := "cmd", args := ["/c", "start", url] }) ∧
    (goos = "darwin" →
      openBrowser goos url = Except.ok { name := "open", args := [url] }) ∧
    (goos ≠ "linux" → goos ≠ "windows" → goos ≠ "darwin" →
      openBrowser goos url = Except.error "unsupported platform") := by
  refine ⟨?_, ?_, ?_, ?_⟩
  · intro h; simp [openBrowser, h]
  · intro h; simp [openBrowser, h]
  · intro h; simp [openBrowser, h]
  · intro h1 h2 h3; simp [openBrowser, h1, h2, h3]

/-- Witness for `open_browser_dispatch` at the platform `plan9` (error
case) and at `linux` (spawn case), with a concrete URL. -/
theorem open_browser_dispatch_witness :
    openBrowser "plan9" "https://www.speedrun.com/p" =
      Except.error "unsupported platform" ∧
    openBrowser "linux" "https://www.speedrun.com/p" =
      Except.ok { name := "xdg-open", args := ["https://www.speedrun.com/p"] } :=
  ⟨(open_browser_dispatch "plan9" "https://www.speedrun.com/p").2.2.2
      (by decide) (by decide) (by decide),
    (open_browser_dispatch "linux" "https://www.speedrun.com/p").1 rfl⟩

/-- C9: the two program variants have extensionally equal core logic: the
`Update` state transition, the request construction and the response
handling of `GetNotifications` agree on every input - the transcriptions
from the two files are definitionally the same functions, the variants
differing only in lipgloss styling constants and rendered decoration. -/
theorem variants_core_logic_agree :
    (∀ m msg, Update m msg = UpdatePart m msg) ∧
    (∀ sessionID, GetNotificationsRequest sessionID =
      GetNotificationsRequestPart sessionID) ∧
    (∀ d status body, handleResponse d status body =
      handleResponsePart d status body) :=
  ⟨fun _ _ => rfl, fun _ => rfl, fun _ _ _ => rfl⟩

/-- C10: in every reachable state of the interactive session the selected
index is non-negative, and whenever the notification list is empty - in
particular in the error state of a failed initial fetch - the selected
index is the concrete value 0, at initialization and after every sequence
of events. -/
theorem reachable_selected_nonneg (m : Model) (h : Reachable m) :
    0 ≤ m.selected ∧ (m.notifications = [] → m.selected = 0) := by
  induction h with
  | init fetch =>
    cases fetch <;> simp [initialModel]
  | step m msg hm ih =>
    obtain ⟨h1, h2⟩ := ih
    have hn := (update_preserves_fields m msg).1
    rcases update_selected_cases m msg with hc | ⟨hc, hpos⟩ | ⟨hc, hlt⟩ <;>
      rw [hn, hc] <;> refine ⟨by omega, fun he => ?_⟩
    · exact h2 he
    · have := h2 he; omega
    · have := h2 he
      simp only [he, List.length_nil, Nat.cast_zero] at hlt
      omega

/-- Witness for `reachable_selected_nonneg` at the error state of a
failed fetch, reachable by `Reachable.init`. -/
theorem reachable_selected_nonneg_witness :
    0 ≤ (initialModel (Except.error "boom")).selected ∧
    ((initialModel (Except.error "boom")).notifications = [] →
      (initialModel (Except.error "boom")).selected = 0) :=
  reachable_selected_nonneg _ (Reachable.init (Except.error "boom"))
